import Mathlib

/-
Verification of the keep-alive login script (login.py) against its
natural-language specification.  The script is shallowly embedded:
page snapshots, the Cloudflare polling loop, the per-attempt body,
the retry loop, the batch runner and the account parser are Lean
functions translated from the source; browser side effects are
replaced by an explicit environment describing what each call returns.
-/

/- Substring machinery: models the Python `needle in hay` test.
`leadsWith n h` holds when `n` is a leading segment of `h`. -/
def leadsWith : List Char → List Char → Bool
  | [], _ => true
  | _ :: _, [] => false
  | a :: as, b :: bs => a == b && leadsWith as bs

/- `hasSub n h` holds when `n` occurs contiguously inside `h`,
matching Python substring membership (empty needle always matches). -/
def hasSub (needle : List Char) : List Char → Bool
  | [] => needle.isEmpty
  | c :: cs => leadsWith needle (c :: cs) || hasSub needle cs

/- ASCII lowering of a character list, modelling `str.lower()` on the
indicator phrases used by the script (all ASCII or CJK, where CJK is
unchanged by lowering in both Python and this model). -/
def lowerList (l : List Char) : List Char := l.map Char.toLower

/- The login-reached indicator phrases, copied from login.py line 98. -/
def login_indicators : List String :=
  ["输入邮箱", "邮箱地址", "Email", "邮箱",
   "登录用户中心", "登录", "登录到您的账户",
   "placeholder=\"输入邮箱\"", "input[type=\"email\"]"]

/- The Cloudflare text indicators from login.py line 119. -/
def cf_text_indicators : List String :=
  ["cloudflare", "正在验证", "checking your browser"]

/- The post-submit success indicators from login.py line 278. -/
def success_signs : List String :=
  ["dashboard", "client area", "my services", "time until suspension",
   "security settings", "用户中心", "控制台", "注销", "logout"]

/- The URL fragments accepted as success from login.py line 281. -/
def url_success_fragments : List String :=
  ["/dashboard", "/clientarea", "/user", "/account", "/home"]

/- The post-submit failure indicators from login.py line 308. -/
def failure_signs : List String :=
  ["wrong password", "密码错误", "invalid login", "登录失败",
   "邮箱或密码不正确", "not a member yet?"]

/- One observation of the page during the polling loop.  `content` is
what `page.content()` returns (`none` models the call raising, which
the script turns into the empty string).  The Bool fields describe the
outcome of the DOM queries and the turnstile interaction for this tick. -/
structure Snapshot where
  content : Option String
  queryRaises : Bool
  hasTurnstileIframe : Bool
  hasCfIframe : Bool
  hasChallengeIframe : Bool
  frameContentOk : Bool
  hasVerifyText : Bool
  clickRaises : Bool
deriving DecidableEq

/- The lower-cased rendered text of a snapshot (login.py lines 105-109). -/
def contentLower (s : Snapshot) : List Char :=
  lowerList (s.content.getD "").data

/- Login-page detection (login.py line 112): any indicator, lowered,
occurring in the lowered content. -/
def loginReachedOf (s : Snapshot) : Bool :=
  login_indicators.any (fun ind => hasSub (lowerList ind.data) (contentLower s))

/- Cloudflare-challenge detection (login.py lines 117-125): a text
indicator, or one of the three iframe queries succeeding; if the query
raises, the iframe part is skipped and only the text result survives. -/
def cfFlagOf (s : Snapshot) : Bool :=
  (cf_text_indicators.any (fun p => hasSub p.data (contentLower s))) ||
  (if s.queryRaises then false
   else s.hasTurnstileIframe || s.hasCfIframe || s.hasChallengeIframe)

/- The page-state classifier implicit in the loop body: the login check
runs first (line 112, with break), then the challenge check. -/
inductive PageState
  | LoginFormReady
  | ChallengePending
  | Unknown
deriving DecidableEq

def classify (s : Snapshot) : PageState :=
  if loginReachedOf s then PageState.LoginFormReady
  else if cfFlagOf s then PageState.ChallengePending
  else PageState.Unknown

/- Result of one best-effort turnstile interaction (login.py 133-160). -/
inductive ClickEvent
  | clickedText
  | clickedCheckbox
  | noFrame
  | frameNoContent
  | failed (msg : String)
deriving DecidableEq

/- The raw interaction, before the surrounding try/except: an error
value models an exception escaping the block body. -/
def turnstileAttemptRaw (s : Snapshot) : Except String ClickEvent :=
  if s.queryRaises then Except.error "query-failed"
  else if s.hasTurnstileIframe = false then Except.ok ClickEvent.noFrame
  else if s.frameContentOk = false then Except.ok ClickEvent.frameNoContent
  else if s.clickRaises then Except.error "click-failed"
  else if s.hasVerifyText then Except.ok ClickEvent.clickedText
  else Except.ok ClickEvent.clickedCheckbox

/- The interaction as the polling loop sees it: the except clause at
line 159 converts every internal exception into a logged event. -/
def turnstileAttempt (s : Snapshot) : ClickEvent :=
  match turnstileAttemptRaw s with
  | Except.ok e => e
  | Except.error m => ClickEvent.failed m

/- Outcome of the bounded polling loop (login.py lines 104-163): the
window is modelled as the finite list of per-tick snapshots. -/
structure PollResult where
  loginReached : Bool
  sawCf : Bool
  clicks : List ClickEvent
deriving DecidableEq

def pollLoop : List Snapshot → Bool → PollResult
  | [], sawCf => ⟨false, sawCf, []⟩
  | s :: rest, sawCf =>
    if loginReachedOf s then ⟨true, sawCf, []⟩
    else
      match pollLoop rest (sawCf || cfFlagOf s) with
      | ⟨lr, sc, cl⟩ =>
        ⟨lr, sc, (if sawCf || cfFlagOf s then [turnstileAttempt s] else []) ++ cl⟩

/- The status decision after the loop (login.py lines 166-175); an
error value models the RuntimeError raised there. -/
def pollStatus (r : PollResult) : Except String Unit :=
  if r.sawCf && r.loginReached then Except.ok ()
  else if r.sawCf && !r.loginReached then Except.error "cf-timeout"
  else if r.loginReached then Except.ok ()
  else Except.error "no-login-or-cf"

/- Best-effort expiry-countdown extraction (login.py lines 285-301):
the regex there is `\d+d\s+\d+h\s+\d+m\s+\d+s`, searched in the text
near the "Time until suspension" label. -/
def takeNum (l : List Char) : Option (List Char × List Char) :=
  match l.span Char.isDigit with
  | (d, r) => if d.isEmpty then none else some (d, r)

def takeWs (l : List Char) : Option (List Char × List Char) :=
  match l.span Char.isWhitespace with
  | (w, r) => if w.isEmpty then none else some (w, r)

/- One or more digits followed by the given unit letter. -/
def matchUnit (marker : Char) (l : List Char) : Option (List Char × List Char) :=
  match takeNum l with
  | none => none
  | some (d, r) =>
    match r with
    | [] => none
    | c :: r2 => if c == marker then some (d ++ [marker], r2) else none

/- Attempt to match the countdown pattern at the head of the list. -/
def matchCountdownAt (l : List Char) : Option String :=
  match matchUnit 'd' l with
  | none => none
  | some (p1, r1) =>
    match takeWs r1 with
    | none => none
    | some (w1, r2) =>
      match matchUnit 'h' r2 with
      | none => none
      | some (p2, r3) =>
        match takeWs r3 with
        | none => none
        | some (w2, r4) =>
          match matchUnit 'm' r4 with
          | none => none
          | some (p3, r5) =>
            match takeWs r5 with
            | none => none
            | some (w3, r6) =>
              match matchUnit 's' r6 with
              | none => none
              | some (p4, _) =>
                some (String.mk (p1 ++ w1 ++ p2 ++ w2 ++ p3 ++ w3 ++ p4))

/- Leftmost match of the countdown pattern, modelling `re.search`. -/
def extractCountdown : List Char → Option String
  | [] => none
  | c :: cs =>
    match matchCountdownAt (c :: cs) with
    | some r => some r
    | none => extractCountdown cs

/- Post-submit outcome classification (login.py lines 271-316): the
rendered text is lowered once; success indicators and URL fragments are
checked first, then failure indicators, else the unknown state. -/
inductive EvalOutcome
  | success
  | terminalFailure
  | unknown
deriving DecidableEq

def evaluateOutcome (html url : String) : EvalOutcome :=
  if success_signs.any (fun s2 => hasSub s2.data (lowerList html.data)) ||
     url_success_fragments.any (fun x => hasSub x.data url.data) then
    EvalOutcome.success
  else if failure_signs.any (fun s2 => hasSub s2.data (lowerList html.data)) then
    EvalOutcome.terminalFailure
  else
    EvalOutcome.unknown

/- What one attempt of the try block produces: a normal return
(real success or the fill-skip keep-alive return) or a raised
exception carrying its message. -/
inductive BodyRes
  | retSuccess (expiryHint : Option String)
  | retKeepAlive
  | raised (msg : String)
deriving DecidableEq

/- The resource and control trace of one attempt: the result, the
number of acquire and close calls made on the browser context and the
browser process (inline closes plus the finally block of lines
350-355), and whether the submission step (Step 3) was reached. -/
structure BodyTrace where
  res : BodyRes
  ctxAcq : Nat
  ctxRel : Nat
  brAcq : Nat
  brRel : Nat
  submitAttempted : Bool
deriving DecidableEq

/- Environment of one attempt: what the browser collaborator does at
each phase.  `pollSnapshots` lists the per-tick observations of the
bounded polling window; `countdownText` is the text found near the
"Time until suspension" label (`none` when the locator fails). -/
structure AttemptEnv where
  launchOk : Bool
  contextOk : Bool
  gotoOk : Bool
  pollSnapshots : List Snapshot
  fillUserOk : Bool
  fillPwOk : Bool
  postHtml : String
  postUrl : String
  countdownText : Option String
deriving DecidableEq

/- One iteration of the try block of login_account (lines 62-316),
with the close calls of every exit path accounted for, including the
double close performed by the inline closes plus the finally block. -/
def attemptBody (env : AttemptEnv) (USER PWD : String) : BodyTrace :=
  if env.launchOk = false then
    ⟨BodyRes.raised "launch-failed", 0, 0, 0, 0, false⟩
  else if env.contextOk = false then
    ⟨BodyRes.raised "context-failed", 0, 0, 1, 1, false⟩
  else if env.gotoOk = false then
    ⟨BodyRes.raised "goto-timeout", 1, 1, 1, 1, false⟩
  else
    match pollStatus (pollLoop env.pollSnapshots false) with
    | Except.error m => ⟨BodyRes.raised m, 1, 1, 1, 1, false⟩
    | Except.ok _ =>
      if (env.fillUserOk && env.fillPwOk && (USER != "") && (PWD != "")) = false then
        if (pollLoop env.pollSnapshots false).loginReached then
          ⟨BodyRes.retKeepAlive, 1, 2, 1, 2, false⟩
        else
          ⟨BodyRes.raised "Failed to locate or fill login fields.", 1, 1, 1, 1, false⟩
      else
        match evaluateOutcome env.postHtml env.postUrl with
        | EvalOutcome.success =>
          ⟨BodyRes.retSuccess
             (Option.bind env.countdownText (fun t => extractCountdown t.data)),
           1, 2, 1, 2, true⟩
        | EvalOutcome.terminalFailure =>
          ⟨BodyRes.raised "Login failed: Invalid credentials or error message detected.",
           1, 2, 1, 2, true⟩
        | EvalOutcome.unknown =>
          ⟨BodyRes.raised "login-unknown-state", 1, 1, 1, 1, true⟩

/- Accumulated acquire and close calls over a whole retry run. -/
structure CloseTally where
  ctxAcq : Nat
  ctxRel : Nat
  brAcq : Nat
  brRel : Nat
deriving DecidableEq

def CloseTally.add (a : CloseTally) (t : BodyTrace) : CloseTally :=
  ⟨a.ctxAcq + t.ctxAcq, a.ctxRel + t.ctxRel, a.brAcq + t.brAcq, a.brRel + t.brRel⟩

/- Final product of login_account for one account: the number of
attempts made, the value returned to the caller (an error models the
exception propagating out of the function), and the resource tally. -/
structure RunResult where
  attempts : Nat
  result : Except String Unit
  closes : CloseTally

/- The retry loop of login_account (lines 55-358): attempt indices run
from 1; a raised attempt is retried while the index is at most
max_retries, otherwise the exception is re-raised to the caller.
The fuel argument equals the number of loop iterations still allowed
and the zero case models the unreachable fall-through raise at
line 358. -/
def loginAccountAux (body : Nat → BodyTrace) (max_retries : Nat) :
    Nat → Nat → CloseTally → RunResult
  | 0, attempt, acc => ⟨attempt - 1, Except.error "failed-all-attempts", acc⟩
  | fuel + 1, attempt, acc =>
    match (body attempt).res with
    | BodyRes.retSuccess _ => ⟨attempt, Except.ok (), acc.add (body attempt)⟩
    | BodyRes.retKeepAlive => ⟨attempt, Except.ok (), acc.add (body attempt)⟩
    | BodyRes.raised m =>
      if attempt ≤ max_retries then
        loginAccountAux body max_retries fuel (attempt + 1) (acc.add (body attempt))
      else
        ⟨attempt, Except.error m, acc.add (body attempt)⟩

def login_account (body : Nat → BodyTrace) (max_retries : Nat) : RunResult :=
  loginAccountAux body max_retries (max_retries + 1) 1 ⟨0, 0, 0, 0⟩

/- Account-string parsing from main (login.py lines 377-391):
split on commas, keep entries containing a colon, split each at its
first colon, strip whitespace from both halves. -/
def splitCommas : List Char → List (List Char)
  | [] => [[]]
  | c :: cs =>
    if c == ',' then [] :: splitCommas cs
    else
      match splitCommas cs with
      | [] => [[c]]
      | h :: t => (c :: h) :: t

def breakAtColon : List Char → Option (List Char × List Char)
  | [] => none
  | c :: cs =>
    if c == ':' then some ([], cs)
    else
      match breakAtColon cs with
      | none => none
      | some (a, b) => some (c :: a, b)

/- Python str.strip: drop whitespace from both ends. -/
def stripEnds (l : List Char) : List Char :=
  ((l.dropWhile Char.isWhitespace).reverse.dropWhile Char.isWhitespace).reverse

def parseAccounts (site_accounts : String) : List (String × String) :=
  (splitCommas site_accounts.data).filterMap (fun acc =>
    match breakAtColon acc with
    | none => none
    | some (u, p) => some (String.mk (stripEnds u), String.mk (stripEnds p)))

/- The per-account loop of main (lines 398-416): every account is run
through login_account inside a try/except; a success appends a success
entry, a caught exception appends a failure entry, and iteration
continues either way. -/
def runBatch (accounts : List (String × String))
    (bodyOf : String → Nat → BodyTrace) (max_retries : Nat) :
    List (String × Bool) :=
  accounts.map (fun a =>
    match (login_account (bodyOf a.1) max_retries).result with
    | Except.ok _ => (a.1, true)
    | Except.error _ => (a.1, false))

/- main (lines 362-429) restricted to the parsing and batch phases:
when no entry parses, the function returns before any login attempt. -/
def mainReport (site_accounts : String)
    (bodyOf : String → Nat → BodyTrace) (max_retries : Nat) :
    List (String × Bool) :=
  if (parseAccounts site_accounts).isEmpty then []
  else runBatch (parseAccounts site_accounts) bodyOf max_retries

/- Concrete fixtures used by the closed theorems below. -/

/- A tick whose content contains the login indicator "登录". -/
def snapLogin : Snapshot :=
  ⟨some "请 登录", false, false, false, false, true, false, false⟩

/- A tick showing only the Cloudflare interstitial. -/
def snapCf : Snapshot :=
  ⟨some "checking your browser", false, true, false, false, true, false, false⟩

/- A tick with neither login nor challenge indicators. -/
def snapBlank : Snapshot :=
  ⟨some "nothing here", false, false, false, false, true, false, false⟩

/- A tick whose content matches both a challenge phrase and a login
indicator at once. -/
def snapBoth : Snapshot :=
  ⟨some "cloudflare 登录", false, true, false, false, true, false, false⟩

/- A challenge tick whose forced turnstile click raises internally. -/
def snapClickFail : Snapshot :=
  ⟨some "checking your browser", false, true, false, false, true, false, true⟩

/- Attempt in which everything works but the post-submit page shows
neither a success nor a failure indicator. -/
def envUnknown : AttemptEnv :=
  ⟨true, true, true, [snapLogin], true, true, "blank page", "", none⟩

/- Attempt whose post-submit page shows a failure indicator. -/
def envWrongPw : AttemptEnv :=
  ⟨true, true, true, [snapLogin], true, true, "wrong password", "", none⟩

/- Attempt whose post-submit page shows a success indicator and whose
countdown locator finds nothing. -/
def envSuccess : AttemptEnv :=
  ⟨true, true, true, [snapLogin], true, true, "dashboard", "", none⟩

/- Attempt that reaches the login page but cannot fill the identity
field. -/
def envKeepAlive : AttemptEnv :=
  ⟨true, true, true, [snapLogin], false, true, "", "", none⟩

/- Helper lemmas. -/

theorem pollStatus_ok_reached (r : PollResult) (h : pollStatus r = Except.ok ()) :
    r.loginReached = true := by
  cases hr : r.loginReached with
  | true => rfl
  | false =>
    exfalso
    cases hc : r.sawCf with
    | true => simp [pollStatus, hr, hc] at h
    | false => simp [pollStatus, hr, hc] at h

theorem pollLoop_no_login (ss : List Snapshot) (b : Bool)
    (h : ∀ x ∈ ss, loginReachedOf x = false) :
    (pollLoop ss b).loginReached = false ∧
    (pollLoop ss b).sawCf = (b || ss.any cfFlagOf) := by
  induction ss generalizing b with
  | nil => simp [pollLoop]
  | cons s rest ih =>
    have hs : loginReachedOf s = false := h s (by simp)
    have hrest : ∀ x ∈ rest, loginReachedOf x = false := fun x hx => h x (by simp [hx])
    rcases ih (b || cfFlagOf s) hrest with ⟨h1, h2⟩
    simp [pollLoop, hs, h1, h2, Bool.or_assoc]

theorem pollLoop_clean_pre (pre : List Snapshot) (s : Snapshot) (rest : List Snapshot)
    (hpre : ∀ x ∈ pre, loginReachedOf x = false ∧ cfFlagOf x = false)
    (hs : loginReachedOf s = true) :
    pollLoop (pre ++ s :: rest) false = ⟨true, false, []⟩ := by
  induction pre with
  | nil => simp [pollLoop, hs]
  | cons x pre ih =>
    rcases hpre x (by simp) with ⟨hx1, hx2⟩
    have h3 := ih (fun y hy => hpre y (by simp [hy]))
    simp [pollLoop, hx1, hx2, h3]

theorem loginAccountAux_allRaised (t : BodyTrace) (m : String) (mr : Nat)
    (h : t.res = BodyRes.raised m) :
    ∀ fuel attempt acc, 1 ≤ fuel → attempt + fuel = mr + 2 →
      (loginAccountAux (fun _ => t) mr fuel attempt acc).attempts = mr + 1 ∧
      (loginAccountAux (fun _ => t) mr fuel attempt acc).result = Except.error m := by
  intro fuel
  induction fuel with
  | zero => intro attempt acc h1 h2; exact absurd h1 (by decide)
  | succ f ih =>
    intro attempt acc h1 h2
    by_cases hle : attempt ≤ mr
    · have hf : 1 ≤ f := by omega
      have hrec := ih (attempt + 1) (acc.add t) hf (by omega)
      simpa [loginAccountAux, h, hle] using hrec
    · have ha : attempt = mr + 1 := by omega
      simp [loginAccountAux, h, hle, ha]

theorem login_account_allRaised (t : BodyTrace) (m : String) (mr : Nat)
    (h : t.res = BodyRes.raised m) :
    (login_account (fun _ => t) mr).attempts = mr + 1 ∧
    (login_account (fun _ => t) mr).result = Except.error m := by
  have := loginAccountAux_allRaised t m mr h (mr + 1) 1 ⟨0, 0, 0, 0⟩ (by omega) (by omega)
  simpa [login_account] using this

theorem login_account_first_keepAlive (body : Nat → BodyTrace) (mr : Nat)
    (h : (body 1).res = BodyRes.retKeepAlive) :
    (login_account body mr).attempts = 1 ∧
    (login_account body mr).result = Except.ok () := by
  simp [login_account, loginAccountAux, h]

theorem splitCommas_no_comma (l : List Char) (h : ∀ c ∈ l, (c == ',') = false) :
    splitCommas l = [l] := by
  induction l with
  | nil => rfl
  | cons c cs ih =>
    have hc := h c (by simp)
    have hcs := ih (fun x hx => h x (by simp [hx]))
    simp [splitCommas, hc, hcs]

theorem splitCommas_append_comma (a b : List Char) (h : ∀ c ∈ a, (c == ',') = false) :
    splitCommas (a ++ ',' :: b) = a :: splitCommas b := by
  induction a with
  | nil => simp [splitCommas]
  | cons c cs ih =>
    have hc := h c (by simp)
    have hcs := ih (fun x hx => h x (by simp [hx]))
    simp [splitCommas, hc, hcs]

theorem breakAtColon_none (l : List Char) (h : ∀ c ∈ l, (c == ':') = false) :
    breakAtColon l = none := by
  induction l with
  | nil => rfl
  | cons c cs ih =>
    have hc := h c (by simp)
    have hcs := ih (fun x hx => h x (by simp [hx]))
    simp [breakAtColon, hc, hcs]

theorem breakAtColon_append (u p : List Char) (h : ∀ c ∈ u, (c == ':') = false) :
    breakAtColon (u ++ ':' :: p) = some (u, p) := by
  induction u with
  | nil => simp [breakAtColon]
  | cons c cs ih =>
    have hc := h c (by simp)
    have hcs := ih (fun x hx => h x (by simp [hx]))
    simp [breakAtColon, hc, hcs]

/-- Claim C6: the state classifier checks login-reached indicators
first: any login indicator occurring as a case-insensitive substring of
the rendered content gives LoginFormReady even when challenge
indicators are also present; otherwise a challenge indicator phrase or
a verification iframe gives ChallengePending; otherwise Unknown. -/
theorem C6_classifier_order (s : Snapshot) :
    (loginReachedOf s = true ↔
      ∃ ind ∈ login_indicators, hasSub (lowerList ind.data) (contentLower s) = true) ∧
    (loginReachedOf s = true → classify s = PageState.LoginFormReady) ∧
    (loginReachedOf s = false → cfFlagOf s = true →
      classify s = PageState.ChallengePending) ∧
    (loginReachedOf s = false → cfFlagOf s = false →
      classify s = PageState.Unknown) := by
  refine ⟨?_, ?_, ?_, ?_⟩
  · simp [loginReachedOf, List.any_eq_true]
  · intro h; simp [classify, h]
  · intro h1 h2; simp [classify, h1, h2]
  · intro h1 h2; simp [classify, h1, h2]

/-- Witness for C6 at concrete snapshots: a page carrying both a login
indicator and a challenge phrase classifies LoginFormReady, a
challenge-only page classifies ChallengePending and a blank page
classifies Unknown. -/
theorem C6_classifier_order_witness :
    classify snapBoth = PageState.LoginFormReady ∧
    classify snapCf = PageState.ChallengePending ∧
    classify snapBlank = PageState.Unknown :=
  ⟨(C6_classifier_order snapBoth).2.1 (by decide),
   (C6_classifier_order snapCf).2.2.1 (by decide) (by decide),
   (C6_classifier_order snapBlank).2.2.2 (by decide) (by decide)⟩

/-- Claim C7: a window that elapses after a challenge was observed but
the login page never reached ends in the retryable cf-timeout
condition; a window that elapses with neither observed ends in the
retryable no-login-or-cf condition; reaching the login page with no
challenge ever observed ends the loop immediately in the login-reached
state with a passing status; and a raised attempt outcome is retried
when budget remains. -/
theorem C7_poll_window (ss pre rest : List Snapshot) (s : Snapshot)
    (t : BodyTrace) (m : String) (mr : Nat) :
    ((∀ x ∈ ss, loginReachedOf x = false) → ss.any cfFlagOf = true →
      pollStatus (pollLoop ss false) = Except.error "cf-timeout") ∧
    ((∀ x ∈ ss, loginReachedOf x = false) → ss.any cfFlagOf = false →
      pollStatus (pollLoop ss false) = Except.error "no-login-or-cf") ∧
    ((∀ x ∈ pre, loginReachedOf x = false ∧ cfFlagOf x = false) →
      loginReachedOf s = true →
      pollLoop (pre ++ s :: rest) false = ⟨true, false, []⟩ ∧
      pollStatus (pollLoop (pre ++ s :: rest) false) = Except.ok ()) ∧
    (t.res = BodyRes.raised m → 1 ≤ mr →
      2 ≤ (login_account (fun _ => t) mr).attempts) := by
  refine ⟨?_, ?_, ?_, ?_⟩
  · intro h hc
    rcases pollLoop_no_login ss false h with ⟨h1, h2⟩
    simp [pollStatus, h1, h2, hc]
  · intro h hc
    rcases pollLoop_no_login ss false h with ⟨h1, h2⟩
    simp [pollStatus, h1, h2, hc]
  · intro hpre hs
    have he := pollLoop_clean_pre pre s rest hpre hs
    refine ⟨he, ?_⟩
    rw [he]; rfl
  · intro h hmr
    have h1 := (login_account_allRaised t m mr h).1
    omega

/-- Witness for C7 at concrete windows: a challenge-only window times
out as cf-timeout, an indicator-free window as no-login-or-cf, a clean
window reaching login exits at once with a passing status, and a
raised attempt with budget one is attempted again. -/
theorem C7_poll_window_witness :
    pollStatus (pollLoop [snapCf] false) = Except.error "cf-timeout" ∧
    pollStatus (pollLoop [snapBlank] false) = Except.error "no-login-or-cf" ∧
    pollLoop [snapBlank, snapLogin] false = ⟨true, false, []⟩ ∧
    pollStatus (pollLoop [snapBlank, snapLogin] false) = Except.ok () ∧
    2 ≤ (login_account (fun _ => attemptBody envUnknown "u" "p") 1).attempts := by
  have h1 := C7_poll_window [snapCf] [] [] snapLogin
    (attemptBody envUnknown "u" "p") "login-unknown-state" 1
  have h2 := C7_poll_window [snapBlank] [snapBlank] ([] : List Snapshot) snapLogin
    (attemptBody envUnknown "u" "p") "login-unknown-state" 1
  have hc := h2.2.2.1 (by decide) (by decide)
  exact ⟨h1.1 (by decide) (by decide), h2.2.1 (by decide) (by decide),
         hc.1, hc.2, h1.2.2.2 (by decide) (by decide)⟩

/-- Claim C9: the challenge-interaction step never propagates an
exception into the polling loop: an internal failure is converted into
a contained logged event, and the loop goes on to the next tick (or
exits on login-reached) exactly as it otherwise would. -/
theorem C9_interactor_contained (s : Snapshot) (rest : List Snapshot)
    (sawCf : Bool) (m : String)
    (h : turnstileAttemptRaw s = Except.error m) :
    turnstileAttempt s = ClickEvent.failed m ∧
    (loginReachedOf s = false →
      pollLoop (s :: rest) sawCf =
        ⟨(pollLoop rest (sawCf || cfFlagOf s)).loginReached,
         (pollLoop rest (sawCf || cfFlagOf s)).sawCf,
         (if sawCf || cfFlagOf s then [ClickEvent.failed m] else []) ++
           (pollLoop rest (sawCf || cfFlagOf s)).clicks⟩) ∧
    (loginReachedOf s = true → pollLoop (s :: rest) sawCf = ⟨true, sawCf, []⟩) := by
  have ht : turnstileAttempt s = ClickEvent.failed m := by
    simp [turnstileAttempt, h]
  refine ⟨ht, ?_, ?_⟩
  · intro hl
    simp [pollLoop, hl, ht]
  · intro hl
    simp [pollLoop, hl]

/-- Witness for C9 at a concrete tick whose forced click raises: the
loop records a contained failure event and still completes the window
with the same control outcome. -/
theorem C9_interactor_contained_witness :
    turnstileAttempt snapClickFail = ClickEvent.failed "click-failed" ∧
    pollLoop [snapClickFail] false =
      ⟨false, true, [ClickEvent.failed "click-failed"]⟩ := by
  have h := C9_interactor_contained snapClickFail [] false "click-failed" rfl
  refine ⟨h.1, ?_⟩
  rw [h.2.1 (by decide)]
  decide

/-- Claim C4: when every attempt raises (a retryable failure), the
retry loop makes exactly max_retries + 1 attempts, the attempt index
running from 1 to that maximum inclusive, and the final result is the
failure value carried to the caller. -/
theorem C4_exhausts_budget (t : BodyTrace) (m : String) (mr : Nat)
    (h : t.res = BodyRes.raised m) :
    (login_account (fun _ => t) mr).attempts = mr + 1 ∧
    (login_account (fun _ => t) mr).result = Except.error m :=
  login_account_allRaised t m mr h

/-- Witness for C4 with the observed configuration max_retries = 2 and
an attempt that always ends in the retryable unknown state: exactly 3
attempts are made and the result is a failure. -/
theorem C4_exhausts_budget_witness :
    (attemptBody envUnknown "u" "p").res = BodyRes.raised "login-unknown-state" ∧
    (login_account (fun _ => attemptBody envUnknown "u" "p") 2).attempts = 3 ∧
    (login_account (fun _ => attemptBody envUnknown "u" "p") 2).result =
      Except.error "login-unknown-state" :=
  ⟨by decide,
   (C4_exhausts_budget (attemptBody envUnknown "u" "p") "login-unknown-state" 2 (by decide)).1,
   (C4_exhausts_budget (attemptBody envUnknown "u" "p") "login-unknown-state" 2 (by decide)).2⟩

/-- Claim C5: when the polling phase passed (so the login page was
reached) but the fill condition fails (a field not locatable or an
empty supplied credential), the attempt returns the keep-alive success
without reaching the submission step, and the retry loop reports
success after exactly one attempt. -/
theorem C5_fill_skip_keep_alive (env : AttemptEnv) (USER PWD : String) (mr : Nat)
    (h1 : env.launchOk = true) (h2 : env.contextOk = true) (h3 : env.gotoOk = true)
    (h4 : pollStatus (pollLoop env.pollSnapshots false) = Except.ok ())
    (h5 : (env.fillUserOk && env.fillPwOk && (USER != "") && (PWD != "")) = false) :
    (attemptBody env USER PWD).res = BodyRes.retKeepAlive ∧
    (attemptBody env USER PWD).submitAttempted = false ∧
    (login_account (fun _ => attemptBody env USER PWD) mr).attempts = 1 ∧
    (login_account (fun _ => attemptBody env USER PWD) mr).result = Except.ok () := by
  have hreach := pollStatus_ok_reached _ h4
  have hbody : attemptBody env USER PWD = ⟨BodyRes.retKeepAlive, 1, 2, 1, 2, false⟩ := by
    simp [attemptBody, h1, h2, h3, h4, h5, hreach]
  have hrun := login_account_first_keepAlive (fun _ => attemptBody env USER PWD) mr
    (by simp [hbody])
  exact ⟨by simp [hbody], by simp [hbody], hrun.1, hrun.2⟩

/-- Witness for C5 at a concrete environment in which the identity
field cannot be filled although the login page was reached. -/
theorem C5_fill_skip_keep_alive_witness :
    (attemptBody envKeepAlive "u" "p").res = BodyRes.retKeepAlive ∧
    (attemptBody envKeepAlive "u" "p").submitAttempted = false ∧
    (login_account (fun _ => attemptBody envKeepAlive "u" "p") 2).attempts = 1 ∧
    (login_account (fun _ => attemptBody envKeepAlive "u" "p") 2).result = Except.ok () :=
  C5_fill_skip_keep_alive envKeepAlive "u" "p" 2 rfl rfl rfl rfl rfl

/-- Claim C8: the post-submit evaluation checks success indicators
(page text or URL fragments) before failure indicators, so a success
match wins even when failure indicators also match; a failure-only
match is the terminal failure; neither matching is the retryable
unknown state; and a failed countdown extraction never downgrades a
success outcome. -/
theorem C8_outcome_priority (html url : String) (env : AttemptEnv) (USER PWD : String) :
    ((success_signs.any (fun s2 => hasSub s2.data (lowerList html.data)) = true ∨
      url_success_fragments.any (fun x => hasSub x.data url.data) = true) →
      evaluateOutcome html url = EvalOutcome.success) ∧
    (success_signs.any (fun s2 => hasSub s2.data (lowerList html.data)) = false →
     url_success_fragments.any (fun x => hasSub x.data url.data) = false →
     failure_signs.any (fun s2 => hasSub s2.data (lowerList html.data)) = true →
      evaluateOutcome html url = EvalOutcome.terminalFailure) ∧
    (success_signs.any (fun s2 => hasSub s2.data (lowerList html.data)) = false →
     url_success_fragments.any (fun x => hasSub x.data url.data) = false →
     failure_signs.any (fun s2 => hasSub s2.data (lowerList html.data)) = false →
      evaluateOutcome html url = EvalOutcome.unknown) ∧
    (env.launchOk = true → env.contextOk = true → env.gotoOk = true →
     pollStatus (pollLoop env.pollSnapshots false) = Except.ok () →
     (env.fillUserOk && env.fillPwOk && (USER != "") && (PWD != "")) = true →
     evaluateOutcome env.postHtml env.postUrl = EvalOutcome.success →
     ∀ ct : Option String,
       (attemptBody { env with countdownText := ct } USER PWD).res =
         BodyRes.retSuccess (Option.bind ct (fun t2 => extractCountdown t2.data))) := by
  refine ⟨?_, ?_, ?_, ?_⟩
  · intro h
    rcases h with h | h <;> simp [evaluateOutcome, h]
  · intro hs hu hf
    simp [evaluateOutcome, hs, hu, hf]
  · intro hs hu hf
    simp [evaluateOutcome, hs, hu, hf]
  · intro h1 h2 h3 h4 h5 h6 ct
    simp [attemptBody, h1, h2, h3, h4, h5, h6]

/-- Witness for C8: a page carrying both success and failure phrases
evaluates as success, a failure-only page as terminal failure, an
indicator-free page as unknown, and a success attempt whose countdown
locator found nothing still returns success with no expiry hint. -/
theorem C8_outcome_priority_witness :
    evaluateOutcome "dashboard wrong password" "" = EvalOutcome.success ∧
    evaluateOutcome "wrong password" "" = EvalOutcome.terminalFailure ∧
    evaluateOutcome "blank page" "" = EvalOutcome.unknown ∧
    (attemptBody envSuccess "u" "p").res = BodyRes.retSuccess none :=
  ⟨(C8_outcome_priority "dashboard wrong password" "" envSuccess "u" "p").1
     (Or.inl (by decide)),
   (C8_outcome_priority "wrong password" "" envSuccess "u" "p").2.1
     (by decide) (by decide) (by decide),
   (C8_outcome_priority "blank page" "" envSuccess "u" "p").2.2.1
     (by decide) (by decide) (by decide),
   (C8_outcome_priority "" "" envSuccess "u" "p").2.2.2
     rfl rfl rfl rfl rfl rfl none⟩

/-- Claim C1 describes the intended never-retry policy for terminal
credential failures, but the code catches the terminal-failure
exception in the same generic handler as retryable ones and retries
it: with a post-submit page matching a failure indicator on every
attempt and max_retries = 2 (the value used by main), the loop makes 3
attempts, not 1, before the final failure. -/
theorem C1_terminal_failure_retried :
    evaluateOutcome "wrong password" "" = EvalOutcome.terminalFailure ∧
    (attemptBody envWrongPw "a@b.com" "wrongpass").res =
      BodyRes.raised "Login failed: Invalid credentials or error message detected." ∧
    (login_account (fun _ => attemptBody envWrongPw "a@b.com" "wrongpass") 2).attempts = 3 ∧
    (login_account (fun _ => attemptBody envWrongPw "a@b.com" "wrongpass") 2).result =
      Except.error "Login failed: Invalid credentials or error message detected." :=
  ⟨by decide, by decide, by decide, rfl⟩

/-- Claim C2 as stated is false: on the success path the context and
the browser are closed inline at lines 303-304 and then again by the
finally block at lines 350-355, so the release-call count is 2 while
the acquire-call count is 1. -/
theorem C2_release_twice_counterexample :
    (attemptBody envSuccess "u" "p").ctxAcq = 1 ∧
    (attemptBody envSuccess "u" "p").ctxRel = 2 ∧
    (attemptBody envSuccess "u" "p").brAcq = 1 ∧
    (attemptBody envSuccess "u" "p").brRel = 2 := by decide

/-- Claim C2 amended: on every exit path of an attempt, each handle is
released at least as many times as it was acquired before the attempt
ends (so before any next attempt starts), and at most twice as many
(the inline close plus the close in the finally block); nothing is
released when the acquisition itself failed. -/
theorem C2_release_bounds (env : AttemptEnv) (USER PWD : String) :
    (attemptBody env USER PWD).ctxAcq ≤ (attemptBody env USER PWD).ctxRel ∧
    (attemptBody env USER PWD).ctxRel ≤ 2 * (attemptBody env USER PWD).ctxAcq ∧
    (attemptBody env USER PWD).brAcq ≤ (attemptBody env USER PWD).brRel ∧
    (attemptBody env USER PWD).brRel ≤ 2 * (attemptBody env USER PWD).brAcq := by
  unfold attemptBody
  repeat' split
  all_goals simp

/-- Claim C3 as stated is false: the final failure of an account is
surfaced to the batch caller as a raised exception (an error value
propagating out of login_account), not as a normally returned
per-account value. -/
theorem C3_failure_raised_counterexample :
    (login_account (fun _ => attemptBody envUnknown "u" "p") 2).result =
      Except.error "login-unknown-state" ∧
    (login_account (fun _ => attemptBody envUnknown "u" "p") 2).result ≠
      Except.ok () := by
  refine ⟨rfl, ?_⟩
  intro hcontra
  rw [show (login_account (fun _ => attemptBody envUnknown "u" "p") 2).result =
      Except.error "login-unknown-state" from rfl] at hcontra
  exact Except.noConfusion hcontra

/-- Claim C3 amended: login_account surfaces the final failure by
raising, and the batch loop in main catches each account exception,
records a per-account entry and continues: whatever each account run
returns, the report lists exactly the configured accounts in order. -/
theorem C3_batch_continues (accounts : List (String × String))
    (bodyOf : String → Nat → BodyTrace) (mr : Nat) :
    (runBatch accounts bodyOf mr).map Prod.fst = accounts.map Prod.fst ∧
    (runBatch accounts bodyOf mr).length = accounts.length := by
  constructor
  · induction accounts with
    | nil => rfl
    | cons a as ih =>
      simp only [runBatch, List.map_cons] at ih ⊢
      cases h : (login_account (bodyOf a.1) mr).result <;> simp [h, ih]
  · simp [runBatch]

/-- Claim C10: the account string is split on commas; an entry with a
colon parses to the trimmed text before the first colon and the
trimmed remainder (which may itself contain colons); a colon-free
entry is silently dropped; and when nothing parses the run produces no
report entry and attempts no login. -/
theorem C10_account_parsing (u p q e r : List Char) (s : String)
    (bodyOf : String → Nat → BodyTrace) (mr : Nat) :
    ((∀ c ∈ e, (c == ',') = false) →
      parseAccounts (String.mk (e ++ ',' :: r)) =
        parseAccounts (String.mk e) ++ parseAccounts (String.mk r)) ∧
    ((∀ c ∈ u, (c == ',') = false) → (∀ c ∈ p, (c == ',') = false) →
     (∀ c ∈ u, (c == ':') = false) →
      parseAccounts (String.mk (u ++ ':' :: p)) =
        [(String.mk (stripEnds u), String.mk (stripEnds p))]) ∧
    ((∀ c ∈ q, (c == ',') = false) → (∀ c ∈ q, (c == ':') = false) →
      parseAccounts (String.mk q) = []) ∧
    (parseAccounts s = [] → mainReport s bodyOf mr = []) := by
  refine ⟨?_, ?_, ?_, ?_⟩
  · intro he
    have h1 := splitCommas_append_comma e r he
    have h2 := splitCommas_no_comma e he
    simp only [parseAccounts]
    rw [h1, h2, ← List.filterMap_append]
    rfl
  · intro hu hp huc
    have hall : ∀ c ∈ u ++ ':' :: p, (c == ',') = false := by
      intro c hc
      rcases List.mem_append.mp hc with hcu | hcp
      · exact hu c hcu
      · rcases List.mem_cons.mp hcp with hcc | hcp2
        · subst hcc; decide
        · exact hp c hcp2
    have h1 := splitCommas_no_comma (u ++ ':' :: p) hall
    have h2 := breakAtColon_append u p huc
    simp only [parseAccounts]
    rw [h1]
    simp [h2]
  · intro hq hqc
    have h1 := splitCommas_no_comma q hq
    have h2 := breakAtColon_none q hqc
    simp only [parseAccounts]
    rw [h1]
    simp [h2]
  · intro h
    simp [mainReport, h]

/-- Witness for C10 at concrete inputs: comma splitting of two
entries, first-colon splitting with trimming and a colon kept inside
the secret, a dropped colon-free entry, and an unparseable string
producing an empty report. -/
theorem C10_account_parsing_witness :
    parseAccounts "a:1,b:2" = parseAccounts "a:1" ++ parseAccounts "b:2" ∧
    parseAccounts " alice:p:w " = [("alice", "p:w")] ∧
    parseAccounts "nocolon" = [] ∧
    mainReport "nocolon" (fun _ _ => attemptBody envUnknown "u" "p") 2 = [] := by
  have h := C10_account_parsing (" alice").data ("p:w ").data ("nocolon").data
    ("a:1").data ("b:2").data "nocolon" (fun _ _ => attemptBody envUnknown "u" "p") 2
  have hdrop : parseAccounts "nocolon" = [] := h.2.2.1 (by decide) (by decide)
  exact ⟨h.1 (by decide), h.2.1 (by decide) (by decide) (by decide),
         hdrop, h.2.2.2 hdrop⟩
